import Mathlib

/-!
Verification of the value-transform layer of the `aquarea` custom component
(`custom_components/aquarea/definitions.py`).

The module is a declarative mapping between MQTT topics of a HeishaMon bridge
and typed entities: static descriptor tables plus small pure decode/encode
functions on payload strings.  This file gives a shallow embedding of those
functions and tables and proves (or refutes) the specified properties.

Conventions of the embedding:
* Python functions that can raise are embedded with an `Option` result where
  `none` models a raised exception (`ValueError`, `JSONDecodeError`,
  `AttributeError`); functions whose bodies cannot raise are embedded as plain
  total functions.
* Python `float` values occurring here are exact decimals, embedded as `ℚ`.
* `pyIntOfString` models `int(str)` (optional surrounding whitespace, optional
  sign, nonempty digit run; CPython's underscore digit grouping is not
  modelled).  `json_loads` models `json.loads` on the JSON fragment used by
  the payloads at hand: objects, arrays, unescaped strings, decimal numbers
  without exponents, `true`/`false`/`null`.
-/

/-! ### Models of the Python primitives used by the decode functions -/

/-- Whitespace stripped by Python's `str.strip` / `int(str)` / `float(str)`. -/
def isPySpace (c : Char) : Bool :=
  c == ' ' || c == '\t' || c == '\n' || c == '\r' || c == '\x0b' || c == '\x0c'

/-- Strip leading and trailing Python whitespace, as a character list. -/
def pyStrip (s : String) : List Char :=
  ((s.toList.dropWhile isPySpace).reverse.dropWhile isPySpace).reverse

/-- Value of a run of decimal digits. -/
def digitsToNat (cs : List Char) : Nat :=
  cs.foldl (fun n c => 10 * n + (c.toNat - 48)) 0

/-- Model of Python `int(s)` on a string: `none` models a raised `ValueError`. -/
def pyIntOfString (s : String) : Option Int :=
  match pyStrip s with
  | [] => none
  | '+' :: rest =>
    if rest.isEmpty || !rest.all Char.isDigit then none
    else some (digitsToNat rest : Nat)
  | '-' :: rest =>
    if rest.isEmpty || !rest.all Char.isDigit then none
    else some (-(digitsToNat rest : Nat))
  | cs =>
    if cs.all Char.isDigit then some (digitsToNat cs : Nat) else none

/-- Model of Python `float(s)` on a string (`[sign] digits [. digits]`, at
least one digit; exponents and `inf`/`nan` are not modelled): `none` models a
raised `ValueError`. -/
def pyFloatOfString (s : String) : Option ℚ :=
  let hasSign : Bool := match pyStrip s with | '+' :: _ => true | '-' :: _ => true | _ => false
  let neg : Bool := match pyStrip s with | '-' :: _ => true | _ => false
  let core := if hasSign then (pyStrip s).tail else pyStrip s
  let ip := core.takeWhile Char.isDigit
  let rest := core.dropWhile Char.isDigit
  match rest with
  | [] =>
    if ip.isEmpty then none
    else some (if neg then -(digitsToNat ip : ℚ) else (digitsToNat ip : ℚ))
  | '.' :: fr =>
    if !fr.all Char.isDigit || (ip.isEmpty && fr.isEmpty) then none
    else
      let q : ℚ := (digitsToNat ip : ℚ) + (digitsToNat fr : ℚ) / (10 : ℚ) ^ fr.length
      some (if neg then -q else q)
  | _ => none

/-! ### Decode / encode functions of `definitions.py` -/

/-- `OPERATING_MODE_TO_STRING`: the curated operating-mode table (codes
"1", "5", "7", "8" are present only as comments in the source, i.e. excluded). -/
def OPERATING_MODE_TO_STRING : List (String × String) :=
  [("0", "Heat only"),
   ("2", "Auto(Heat)"),
   ("3", "DHW only"),
   ("4", "Heat+DWH"),
   ("6", "Auto(Heat)+DHW")]

/-- `operating_mode_to_state`: first code whose display string equals the
given value, `None` when no code matches. -/
def operating_mode_to_state (value : String) : Option String :=
  ((OPERATING_MODE_TO_STRING.filter (fun p => p.2 == value)).head?).map (fun p => p.1)

/-- `read_operating_mode_state`: table lookup with an "Unknown operating mode
value: ..." fallback (`dict.get` with an f-string default). -/
def read_operating_mode_state (value : String) : String :=
  (OPERATING_MODE_TO_STRING.lookup value).getD ("Unknown operating mode value: " ++ value)

/-- `read_threeway_valve` (the logging of unhandled values is a side effect
outside the embedded value semantics). -/
def read_threeway_valve (value : String) : Option String :=
  if value = "0" then some "Room"
  else if value = "1" then some "Tank"
  else none

/-- `bit_to_bool`. -/
def bit_to_bool (value : String) : Option Bool :=
  if value = "1" then some true
  else if value = "0" then some false
  else none

/-- `read_quiet_mode`. -/
def read_quiet_mode (value : String) : String :=
  if value = "4" then "Scheduled"
  else if value = "0" then "Off"
  else value

/-- `write_quiet_mode`: returns a Python `int`; `none` models the `ValueError`
raised by `int(selected_value)` on a non-numeric option. -/
def write_quiet_mode (selected_value : String) : Option Int :=
  if selected_value = "Off" then some 0
  else if selected_value = "Scheduled" then some 4
  else pyIntOfString selected_value

/-- `ms_to_secs`: `if value: return value / 1000` — Python truthiness, so both
`None` and `0` take the `return None` branch. -/
def ms_to_secs (value : Option ℚ) : Option ℚ :=
  match value with
  | some q => if q ≠ 0 then some (q / 1000) else none
  | none => none

/-! ### Model of `json.loads` and `read_stats_json` -/

/-- JSON values as produced by `json.loads` (numbers as exact decimals). -/
inductive JVal where
  | jnull : JVal
  | jbool (b : Bool) : JVal
  | jnum (q : ℚ) : JVal
  | jstr (s : String) : JVal
  | jarr (xs : List JVal) : JVal
  | jobj (fields : List (String × JVal)) : JVal

/-- Skip JSON whitespace. -/
def skipWs (cs : List Char) : List Char :=
  cs.dropWhile (fun c => c == ' ' || c == '\t' || c == '\n' || c == '\r')

/-- Parse the remainder of a JSON string after the opening quote (escape
sequences are not modelled and fail the parse). -/
def parseStringRest (cs : List Char) : Option (String × List Char) :=
  let body := cs.takeWhile (fun c => !(c == '"') && !(c == '\\'))
  match cs.dropWhile (fun c => !(c == '"') && !(c == '\\')) with
  | '"' :: rest => some (String.mk body, rest)
  | _ => none

/-- Parse a JSON number (`-? digits (. digits)?`, no exponent). -/
def parseNumber (cs : List Char) : Option (ℚ × List Char) :=
  let neg : Bool := match cs with | '-' :: _ => true | _ => false
  let cs1 := match cs with | '-' :: rest => rest | _ => cs
  let ip := cs1.takeWhile Char.isDigit
  let cs2 := cs1.dropWhile Char.isDigit
  if ip.isEmpty then none
  else
    match cs2 with
    | '.' :: cs3 =>
      let fr := cs3.takeWhile Char.isDigit
      let cs4 := cs3.dropWhile Char.isDigit
      if fr.isEmpty then none
      else
        let q : ℚ := (digitsToNat ip : ℚ) + (digitsToNat fr : ℚ) / (10 : ℚ) ^ fr.length
        some ((if neg then -q else q), cs4)
    | _ => some ((if neg then -(digitsToNat ip : ℚ) else (digitsToNat ip : ℚ)), cs2)

mutual

/-- Parse one JSON value (fuel-indexed recursion; the fuel bounds nesting). -/
def parseVal : Nat → List Char → Option (JVal × List Char)
  | 0, _ => none
  | Nat.succ fuel, cs =>
    match skipWs cs with
    | 'n' :: 'u' :: 'l' :: 'l' :: rest => some (JVal.jnull, rest)
    | 't' :: 'r' :: 'u' :: 'e' :: rest => some (JVal.jbool true, rest)
    | 'f' :: 'a' :: 'l' :: 's' :: 'e' :: rest => some (JVal.jbool false, rest)
    | '"' :: rest => (parseStringRest rest).map (fun p => (JVal.jstr p.1, p.2))
    | '[' :: rest =>
      (match skipWs rest with
       | ']' :: rest2 => some (JVal.jarr [], rest2)
       | cs2 => (parseArrItems fuel cs2).map (fun p => (JVal.jarr p.1, p.2)))
    | '\x7b' :: rest =>
      (match skipWs rest with
       | '\x7d' :: rest2 => some (JVal.jobj [], rest2)
       | cs2 => (parseObjItems fuel cs2).map (fun p => (JVal.jobj p.1, p.2)))
    | c :: rest =>
      if c == '-' || c.isDigit then
        (parseNumber (c :: rest)).map (fun p => (JVal.jnum p.1, p.2))
      else none
    | [] => none

/-- Parse the comma-separated items of a nonempty JSON array, including the
closing bracket. -/
def parseArrItems : Nat → List Char → Option (List JVal × List Char)
  | 0, _ => none
  | Nat.succ fuel, cs =>
    match parseVal fuel cs with
    | none => none
    | some (v, rest) =>
      match skipWs rest with
      | ',' :: rest2 => (parseArrItems fuel rest2).map (fun p => (v :: p.1, p.2))
      | ']' :: rest2 => some ([v], rest2)
      | _ => none

/-- Parse the comma-separated members of a nonempty JSON object, including the
closing brace. -/
def parseObjItems : Nat → List Char → Option (List (String × JVal) × List Char)
  | 0, _ => none
  | Nat.succ fuel, cs =>
    match skipWs cs with
    | '"' :: rest =>
      match parseStringRest rest with
      | none => none
      | some (k, rest1) =>
        match skipWs rest1 with
        | ':' :: rest2 =>
          match parseVal fuel rest2 with
          | none => none
          | some (v, rest3) =>
            match skipWs rest3 with
            | ',' :: rest4 => (parseObjItems fuel rest4).map (fun p => ((k, v) :: p.1, p.2))
            | '\x7d' :: rest4 => some ([(k, v)], rest4)
            | _ => none
        | _ => none
    | _ => none

end

/-- Model of Python `json.loads`: `none` models a raised `JSONDecodeError`. -/
def json_loads (s : String) : Option JVal :=
  match parseVal (s.length + 1) s.toList with
  | some (v, rest) => if (skipWs rest).isEmpty then some v else none
  | none => none

/-- Python `dict.get(k, None)` on the parsed object's members (with the later
of duplicate JSON keys winning, as in a Python dict built by `json.loads`). -/
def dict_get (fields : List (String × JVal)) (k : String) : Option JVal :=
  ((fields.filter (fun p => p.1 == k)).getLast?).map (fun p => p.2)

/-- Python truthiness of a decoded JSON value. -/
def jtruthy : JVal → Bool
  | JVal.jnull => false
  | JVal.jbool b => b
  | JVal.jnum q => !(q == 0)
  | JVal.jstr s => !(s == "")
  | JVal.jarr xs => !xs.isEmpty
  | JVal.jobj fields => !fields.isEmpty

/-- Model of Python `float(x)` on a decoded JSON value: `none` models a raised
`TypeError`/`ValueError`. -/
def pyFloat : JVal → Option ℚ
  | JVal.jnum q => some q
  | JVal.jbool b => some (if b then 1 else 0)
  | JVal.jstr s => pyFloatOfString s
  | _ => none

/-- `read_stats_json`: `json.loads(json_doc).get(field_name, None)`, then
`float` of the value when it is truthy, else `None`.  The outer `Option`
models exceptions: `none` when `json.loads` raises on a malformed document,
when `.get` is called on a non-object (`AttributeError`), or when `float`
raises on a truthy non-numeric field. -/
def read_stats_json (field_name : String) (json_doc : String) : Option (Option ℚ) :=
  match json_loads json_doc with
  | none => none
  | some (JVal.jobj fields) =>
    match dict_get fields field_name with
    | none => some none
    | some v => if jtruthy v then (pyFloat v).map some else some none
  | some _ => none

/-! ### Descriptor tables

The descriptor records are embedded as projections of the Python dataclasses
onto the fields the verified properties concern: topic id, state key, command
topic, display name, the MQTT payload defaults, the option lists and the
decode (`state`) function where its type is uniform across the table.
Display metadata (units, device classes, entity categories, `qos`, `retain`,
`encoding`) and the per-row heterogeneous transform bindings of `SENSORS` and
`SELECTS` (e.g. `read_power_mode_time` on TOP17, `read_threeway_valve` on
TOP20, the field-curried `read_stats_json` uses on the `STAT1_*` rows) are
rows' data not referenced by any verified property and are omitted from the
projection; the transform functions themselves are defined above.  `NUMBERS`
keeps its decode binding `state` since the totality properties concern it. -/

/-- Projection of `HeishaMonNumberEntityDescription` (table `NUMBERS`),
including the decode binding `state` (the source binds the bare Python
builtin `int`, whose behavior on a payload string is `pyIntOfString`). -/
structure NumberRow where
  heishamon_topic_id : String
  key : String
  command_topic : String
  name : String
  native_min_value : Int
  native_max_value : Int
  state : String → Option Int

/-- Projection of `HeishaMonSelectEntityDescription` (table `SELECTS`). -/
structure SelectRow where
  heishamon_topic_id : String
  key : String
  command_topic : String
  name : String
  options : List String

/-- Projection of `HeishaMonSwitchEntityDescription` (table `MQTT_SWITCHES`),
with the dataclass field defaults `payload_on="1"`, `payload_off="0"`. -/
structure SwitchRow where
  heishamon_topic_id : String
  key : String
  command_topic : String
  name : String
  payload_on : String := "1"
  payload_off : String := "0"
  state : String → Option Bool

/-- Projection of `HeishaMonBinarySensorEntityDescription`
(table `BINARY_SENSORS`). -/
structure BinarySensorRow where
  heishamon_topic_id : String
  key : String
  name : String
  state : String → Option Bool

/-- Projection of `HeishaMonSensorEntityDescription` (table `SENSORS`). -/
structure SensorRow where
  heishamon_topic_id : String
  key : String
  name : String

/-- The `NUMBERS` table (the source row binds `state=int`, the bare builtin,
embedded as `pyIntOfString`; the `state_to_mqtt=int` encode binding is
omitted like the other encode bindings). -/
def NUMBERS : List NumberRow :=
  [{ heishamon_topic_id := "SET11", key := "panasonic_heat_pump/main/DHW_Target_Temp",
     command_topic := "panasonic_heat_pump/commands/SetDHWTemp",
     name := "DHW Target Temperature", native_min_value := 48, native_max_value := 60,
     state := pyIntOfString }]

/-- The `SELECTS` table (SET3 also corresponds to TOP18; its transforms are
`read_quiet_mode` / `write_quiet_mode`, SET9's are `read_operating_mode_state`
/ `operating_mode_to_state`). -/
def SELECTS : List SelectRow :=
  [{ heishamon_topic_id := "SET3", key := "panasonic_heat_pump/main/Quiet_Mode_Level",
     command_topic := "panasonic_heat_pump/commands/SetQuietMode",
     name := "Aquarea Quiet Mode", options := ["Off", "1", "2", "3", "Scheduled"] },
   { heishamon_topic_id := "SET9", key := "panasonic_heat_pump/main/Operating_Mode_State",
     command_topic := "panasonic_heat_pump/commands/SetOperationMode",
     name := "Aquarea Mode", options := OPERATING_MODE_TO_STRING.map (fun p => p.2) }]

/-- The `MQTT_SWITCHES` table. -/
def MQTT_SWITCHES : List SwitchRow :=
  [{ heishamon_topic_id := "TOP19", key := "panasonic_heat_pump/main/Holiday_Mode_State",
     command_topic := "panasonic_heat_pump/main/Holiday_Mode_State",
     name := "Aquarea Holiday Mode", state := bit_to_bool },
   { heishamon_topic_id := "TOP0", key := "panasonic_heat_pump/main/Heatpump_State",
     command_topic := "panasonic_heat_pump/commands/SetHeatpump",
     name := "Aquarea Main Power", state := bit_to_bool },
   { heishamon_topic_id := "TOP2", key := "panasonic_heat_pump/main/Force_DHW_State",
     command_topic := "panasonic_heat_pump/commands/SetForceDHW",
     name := "Aquarea Force DHW Mode", state := bit_to_bool },
   { heishamon_topic_id := "SET24", key := "panasonic_heat_pump/main/Main_Schedule_State",
     command_topic := "panasonic_heat_pump/commands/SetMainSchedule",
     name := "Aquarea Main thermosthat schedule", state := bit_to_bool }]

/-- The `BINARY_SENSORS` table. -/
def BINARY_SENSORS : List BinarySensorRow :=
  [{ heishamon_topic_id := "TOP3", key := "panasonic_heat_pump/main/Quiet_Mode_Schedule",
     name := "Aquarea Quiet Mode Schedule", state := bit_to_bool },
   { heishamon_topic_id := "TOP26", key := "panasonic_heat_pump/main/Defrosting_State",
     name := "Aquarea Defrost State", state := bit_to_bool },
   { heishamon_topic_id := "TOP58", key := "panasonic_heat_pump/main/DHW_Heater_State",
     name := "Aquarea Tank Heater Enabled", state := bit_to_bool },
   { heishamon_topic_id := "TOP59", key := "panasonic_heat_pump/main/Room_Heater_State",
     name := "Aquarea Room Heater Enabled", state := bit_to_bool },
   { heishamon_topic_id := "TOP60", key := "panasonic_heat_pump/main/Internal_Heater_State",
     name := "Aquarea Internal Heater State", state := bit_to_bool },
   { heishamon_topic_id := "TOP61", key := "panasonic_heat_pump/main/External_Heater_State",
     name := "Aquarea External Heater State", state := bit_to_bool }]

/-- The `SENSORS` table. -/
def SENSORS : List SensorRow :=
  [{ heishamon_topic_id := "TOP1", key := "panasonic_heat_pump/main/Pump_Flow", name := "Aquarea Pump Flow" },
   { heishamon_topic_id := "TOP4", key := "panasonic_heat_pump/main/Operating_Mode_State", name := "Aquarea Mode" },
   { heishamon_topic_id := "TOP5", key := "panasonic_heat_pump/main/Main_Inlet_Temp", name := "Aquarea Inlet Temperature" },
   { heishamon_topic_id := "TOP6", key := "panasonic_heat_pump/main/Main_Outlet_Temp", name := "Aquarea Outlet Temperature" },
   { heishamon_topic_id := "TOP7", key := "panasonic_heat_pump/main/Main_Target_Temp", name := "Aquarea Outlet Target Temperature" },
   { heishamon_topic_id := "TOP8", key := "panasonic_heat_pump/main/Compressor_Freq", name := "Aquarea Compressor Frequency" },
   { heishamon_topic_id := "TOP9", key := "panasonic_heat_pump/main/DHW_Target_Temp", name := "Aquarea Tank Set Temperature" },
   { heishamon_topic_id := "TOP10", key := "panasonic_heat_pump/main/DHW_Temp", name := "Aquarea Tank Actual Tank Temperature" },
   { heishamon_topic_id := "TOP11", key := "panasonic_heat_pump/main/Operations_Hours", name := "Aquarea Compressor Operating Hours" },
   { heishamon_topic_id := "TOP12", key := "panasonic_heat_pump/main/Operations_Counter", name := "Aquarea Compressor Start/Stop Counter" },
   { heishamon_topic_id := "TOP14", key := "panasonic_heat_pump/main/Outside_Temp", name := "Aquarea Outdoor Ambient" },
   { heishamon_topic_id := "TOP15", key := "panasonic_heat_pump/main/Heat_Energy_Production", name := "Aquarea Power Produced" },
   { heishamon_topic_id := "TOP16", key := "panasonic_heat_pump/main/Heat_Energy_Consumption", name := "Aquarea Power Consumed" },
   { heishamon_topic_id := "TOP17", key := "panasonic_heat_pump/main/Powerful_Mode_Time", name := "Aquarea Powerful Mode" },
   { heishamon_topic_id := "TOP20", key := "panasonic_heat_pump/main/ThreeWay_Valve_State", name := "Aquarea 3-way Valve" },
   { heishamon_topic_id := "TOP21", key := "panasonic_heat_pump/main/Outside_Pipe_Temp", name := "Aquarea Outdoor Pipe Temperature" },
   { heishamon_topic_id := "TOP22", key := "panasonic_heat_pump/main/DHW_Heat_Delta", name := "Aquarea DHW heating delta" },
   { heishamon_topic_id := "TOP23", key := "panasonic_heat_pump/main/Heat_Delta", name := "Aquarea Heat delta" },
   { heishamon_topic_id := "TOP24", key := "panasonic_heat_pump/main/Cool_Delta", name := "Aquarea Cool delta" },
   { heishamon_topic_id := "TOP25", key := "panasonic_heat_pump/main/DHW_Holiday_Shift_Temp", name := "Aquarea DHW Holiday shift temperature" },
   { heishamon_topic_id := "TOP27", key := "panasonic_heat_pump/main/Z1_Heat_Request_Temp", name := "Aquarea Zone 1 Heat Requested shift" },
   { heishamon_topic_id := "TOP28", key := "panasonic_heat_pump/main/Z1_Cool_Request_Temp", name := "Aquarea Zone 1 Cool Requested shift" },
   { heishamon_topic_id := "TOP29", key := "panasonic_heat_pump/main/Z1_Heat_Curve_Target_High_Temp", name := "Aquarea Zone 1 Target temperature at lowest point on heating curve" },
   { heishamon_topic_id := "TOP30", key := "panasonic_heat_pump/main/Z1_Heat_Curve_Target_Low_Temp", name := "Aquarea Zone 1 Target temperature at highest point on heating curve" },
   { heishamon_topic_id := "TOP31", key := "panasonic_heat_pump/main/Z1_Heat_Curve_Outside_High_Temp", name := "Aquarea Zone 1 Lowest outside temperature on the heating curve" },
   { heishamon_topic_id := "TOP32", key := "panasonic_heat_pump/main/Z1_Heat_Curve_Outside_Low_Temp", name := "Aquarea Zone 1 Highest outside temperature on the heating curve" },
   { heishamon_topic_id := "TOP33", key := "panasonic_heat_pump/main/Room_Thermostat_Temp", name := "Aquarea Remote control thermosthat temperature" },
   { heishamon_topic_id := "TOP34", key := "panasonic_heat_pump/main/Z2_Heat_Request_Temp", name := "Aquarea Zone 2 Heat Requested shift" },
   { heishamon_topic_id := "TOP35", key := "panasonic_heat_pump/main/Z2_Cool_Request_Temp", name := "Aquarea Zone 2 Cool Requested shift" },
   { heishamon_topic_id := "TOP36", key := "panasonic_heat_pump/main/Z1_Water_Temp", name := "Aquarea Zone 1 water outlet temperature" },
   { heishamon_topic_id := "TOP37", key := "panasonic_heat_pump/main/Z2_Water_Temp", name := "Aquarea Zone 2 water outlet temperature" },
   { heishamon_topic_id := "TOP38", key := "panasonic_heat_pump/main/Cool_Energy_Production", name := "Aquarea Thermal Cooling power production" },
   { heishamon_topic_id := "TOP39", key := "panasonic_heat_pump/main/Cool_Energy_Consumption", name := "Aquarea Thermal Cooling power consumption" },
   { heishamon_topic_id := "TOP40", key := "panasonic_heat_pump/main/DHW_Energy_Production", name := "Aquarea DHW Power Produced" },
   { heishamon_topic_id := "TOP41", key := "panasonic_heat_pump/main/DHW_Energy_Consumption", name := "Aquarea DHW Power Consumed" },
   { heishamon_topic_id := "TOP42", key := "panasonic_heat_pump/main/Z1_Water_Target_Temp", name := "Aquarea Zone 1 water target temperature" },
   { heishamon_topic_id := "TOP43", key := "panasonic_heat_pump/main/Z2_Water_Target_Temp", name := "Aquarea Zone 2 water target temperature" },
   { heishamon_topic_id := "TOP44", key := "panasonic_heat_pump/main/Error", name := "Aquarea Last Error" },
   { heishamon_topic_id := "TOP45", key := "panasonic_heat_pump/main/Room_Holiday_Shift_Temp", name := "Aquarea Room heating Holiday shift temperature" },
   { heishamon_topic_id := "TOP46", key := "panasonic_heat_pump/main/Buffer_Temp", name := "Aquarea Actual Buffer temperature" },
   { heishamon_topic_id := "TOP47", key := "panasonic_heat_pump/main/Solar_Temp", name := "Aquarea Actual Solar temperature" },
   { heishamon_topic_id := "TOP48", key := "panasonic_heat_pump/main/Pool_Temp", name := "Aquarea Actual Pool temperature" },
   { heishamon_topic_id := "TOP49", key := "panasonic_heat_pump/main/Main_Hex_Outlet_Temp", name := "Aquarea Main HEX Outlet Temperature" },
   { heishamon_topic_id := "TOP50", key := "panasonic_heat_pump/main/Discharge_Temp", name := "Aquarea Discharge Temperature" },
   { heishamon_topic_id := "TOP51", key := "panasonic_heat_pump/main/Inside_Pipe_Temp", name := "Aquarea Inside Pipe Temperature" },
   { heishamon_topic_id := "TOP52", key := "panasonic_heat_pump/main/Defrost_Temp", name := "Aquarea Defrost Temperature" },
   { heishamon_topic_id := "TOP53", key := "panasonic_heat_pump/main/Eva_Outlet_Temp", name := "Aquarea Eva Outlet Temperature" },
   { heishamon_topic_id := "TOP54", key := "panasonic_heat_pump/main/Bypass_Outlet_Temp", name := "Aquarea Bypass Outlet Temperature" },
   { heishamon_topic_id := "TOP55", key := "panasonic_heat_pump/main/Ipm_Temp", name := "Aquarea Ipm Temperature" },
   { heishamon_topic_id := "TOP56", key := "panasonic_heat_pump/main/Z1_Temp", name := "Aquarea Zone1: Actual Temperature" },
   { heishamon_topic_id := "TOP57", key := "panasonic_heat_pump/main/Z2_Temp", name := "Aquarea Zone1: Actual Temperature" },
   { heishamon_topic_id := "TOP62", key := "panasonic_heat_pump/main/Fan1_Motor_Speed", name := "Aquarea Fan 1 Speed" },
   { heishamon_topic_id := "TOP63", key := "panasonic_heat_pump/main/Fan2_Motor_Speed", name := "Aquarea Fan 2 Speed" },
   { heishamon_topic_id := "TOP64", key := "panasonic_heat_pump/main/High_Pressure", name := "Aquarea High pressure" },
   { heishamon_topic_id := "TOP65", key := "panasonic_heat_pump/main/Pump_Speed", name := "Aquarea Pump Speed" },
   { heishamon_topic_id := "TOP66", key := "panasonic_heat_pump/main/Low_Pressure", name := "Aquarea Low Pressure" },
   { heishamon_topic_id := "TOP67", key := "panasonic_heat_pump/main/Compressor_Current", name := "Aquarea Compressor Current" },
   { heishamon_topic_id := "TOP92", key := "panasonic_heat_pump/main/Heat_Pump_Model", name := "Aquarea Heatpump model" },
   { heishamon_topic_id := "STAT1_rssi", key := "panasonic_heat_pump/stats", name := "HeishaMon RSSI" },
   { heishamon_topic_id := "STAT1_uptime", key := "panasonic_heat_pump/stats", name := "HeishaMon Uptime" },
   { heishamon_topic_id := "STAT1_total_reads", key := "panasonic_heat_pump/stats", name := "HeishaMon Total reads" },
   { heishamon_topic_id := "STAT1_good_reads", key := "panasonic_heat_pump/stats", name := "HeishaMon Good reads" },
   { heishamon_topic_id := "STAT1_badcrc_reads", key := "panasonic_heat_pump/stats", name := "HeishaMon bad CRC reads" },
   { heishamon_topic_id := "STAT1_badheader_reads", key := "panasonic_heat_pump/stats", name := "HeishaMon bad header reads" },
   { heishamon_topic_id := "STAT1_tooshort_reads", key := "panasonic_heat_pump/stats", name := "HeishaMon too short reads" },
   { heishamon_topic_id := "STAT1_toolong_reads", key := "panasonic_heat_pump/stats", name := "HeishaMon too long reads" },
   { heishamon_topic_id := "STAT1_timeout_reads", key := "panasonic_heat_pump/stats", name := "HeishaMon timeout reads" },
   { heishamon_topic_id := "STAT1_voltage", key := "panasonic_heat_pump/stats", name := "HeishaMon voltage" },
   { heishamon_topic_id := "STAT1_freememory", key := "panasonic_heat_pump/stats", name := "HeishaMon free memory" },
   { heishamon_topic_id := "STAT1_freeheap", key := "panasonic_heat_pump/stats", name := "HeishaMon free heap" },
   { heishamon_topic_id := "STAT1-mqttreconnects", key := "panasonic_heat_pump/stats", name := "HeishaMon mqtt reconnects" }]

/-! ### The `update_device_model` side-effect hook

`update_device_model` itself is in `definitions.py`, but the registry it
mutates (`homeassistant.helpers.device_registry`) is host-framework code that
is not part of this repository, so the registry operation is modelled from
the spec. -/

/-- The `device_info` mapping of a sensor entity: absent, or present with an
optional `identifiers` entry (mirroring the source's
`entity.device_info is not None and "identifiers" in entity.device_info`). -/
structure DeviceInfo where
  identifiers : Option String

/-- Projection of the host sensor entity to the field `update_device_model`
reads. -/
structure AquareaEntity where
  device_info : Option DeviceInfo

/-- One record of the host device registry. -/
structure DeviceEntry where
  identifiers : Option String
  model : String
deriving DecidableEq

/-- The `identifiers` value `update_device_model` computes from the entity. -/
def entity_identifiers (entity : AquareaEntity) : Option String :=
  match entity.device_info with
  | some di => di.identifiers
  | none => none

/-- Modelled from the spec: the host device registry capability
`DeviceRegistry.upsert(identifiers, model_name)` behind
`device_registry.async_get_or_create` (the registry itself is
host-framework code absent from the repository).  If a record with the given
identifiers exists it is updated in place with the model, otherwise a new
record is created. -/
def async_get_or_create (reg : List DeviceEntry) (identifiers : Option String)
    (model : String) : List DeviceEntry :=
  if reg.any (fun d => d.identifiers == identifiers) then
    reg.map (fun d => if d.identifiers == identifiers then { d with model := model } else d)
  else
    reg ++ [{ identifiers := identifiers, model := model }]

/-- `update_device_model`: resolve the entity's identifiers and upsert the
model into the device registry (`config_entry_id` is passed through to the
host and does not affect the registry contents in the model). -/
def update_device_model (entity : AquareaEntity) (_config_entry_id : String)
    (model : String) (reg : List DeviceEntry) : List DeviceEntry :=
  async_get_or_create reg (entity_identifiers entity) model

/-! ### Helper lemmas -/

/-- No curated mode string can equal an "Unknown operating mode value: ..."
fallback: the fallback prefix alone is longer than every mode string. -/
theorem unknown_mode_ne (s v : String) (h : s.length < 30) :
    (s == "Unknown operating mode value: " ++ v) = false := by
  rw [beq_eq_false_iff_ne]
  intro heq
  have hl : s.length = ("Unknown operating mode value: " ++ v).length := by rw [heq]
  rw [String.length_append] at hl
  have h30 : ("Unknown operating mode value: ").length = 30 := by decide
  rw [h30] at hl
  omega

/-- Upserting the same identifiers/model twice is the same as once. -/
theorem agoc_idem (reg : List DeviceEntry) (ident : Option String) (model : String) :
    async_get_or_create (async_get_or_create reg ident model) ident model
      = async_get_or_create reg ident model := by
  unfold async_get_or_create
  by_cases hany : reg.any (fun d => d.identifiers == ident)
  · rw [if_pos hany]
    have hany2 : (reg.map (fun d => if d.identifiers == ident then { d with model := model } else d)).any
        (fun d => d.identifiers == ident) = true := by
      rw [List.any_map]
      rw [List.any_eq_true] at hany ⊢
      obtain ⟨d, hd, hdp⟩ := hany
      refine ⟨d, hd, ?_⟩
      simp only [Function.comp]
      simp only [beq_iff_eq] at hdp ⊢
      simp [hdp]
    rw [if_pos hany2, List.map_map]
    apply List.map_congr_left
    intro d _
    simp only [Function.comp]
    by_cases h : d.identifiers == ident
    · simp [h]
    · simp [h]
  · rw [if_neg hany]
    have hnone : ∀ d ∈ reg, (d.identifiers == ident) = false := by
      intro d hd
      by_contra h
      apply hany
      rw [List.any_eq_true]
      exact ⟨d, hd, by simpa using h⟩
    have hany2 : ((reg ++ [DeviceEntry.mk ident model]).any
        (fun d => d.identifiers == ident)) = true := by
      simp [List.any_append]
    rw [if_pos hany2, List.map_append]
    have h1 : reg.map (fun d => if d.identifiers == ident then { d with model := model } else d) = reg := by
      conv_rhs => rw [← List.map_id reg]
      apply List.map_congr_left
      intro d hd
      simp [hnone d hd]
    have h2 : [DeviceEntry.mk ident model].map
        (fun d => if d.identifiers == ident then { d with model := model } else d)
        = [DeviceEntry.mk ident model] := by
      simp
    rw [h1, h2]

/-- After an upsert into a registry holding at most one record with the given
identifiers, exactly one record has those identifiers together with the model. -/
theorem agoc_count (reg : List DeviceEntry) (ident : Option String) (model : String)
    (h : reg.countP (fun d => d.identifiers == ident) ≤ 1) :
    (async_get_or_create reg ident model).countP
      (fun d => d.identifiers == ident && d.model == model) = 1 := by
  unfold async_get_or_create
  by_cases hany : reg.any (fun d => d.identifiers == ident)
  · rw [if_pos hany, List.countP_map]
    have hpt : ∀ d ∈ reg,
        ((fun d => d.identifiers == ident && d.model == model) ∘
          (fun d => if d.identifiers == ident then { d with model := model } else d)) d = true
        ↔ (fun d => d.identifiers == ident) d = true := by
      intro d _
      simp only [Function.comp]
      by_cases hd : d.identifiers == ident
      · simp [hd]
      · simp [hd]
    rw [List.countP_congr hpt]
    have hpos : 0 < reg.countP (fun d => d.identifiers == ident) :=
      List.countP_pos_iff.2 (by rwa [List.any_eq_true] at hany)
    omega
  · rw [if_neg hany, List.countP_append]
    have h0 : reg.countP (fun d => d.identifiers == ident && d.model == model) = 0 := by
      rw [List.countP_eq_zero]
      intro d hd
      intro hcon
      apply hany
      rw [List.any_eq_true]
      exact ⟨d, hd, by simp only [Bool.and_eq_true] at hcon; exact hcon.1⟩
    rw [h0]
    simp [List.countP_cons]

/-! ### Claim theorems -/

/-- Claim C2: for every code in the curated set, encode (decode code) returns
the code; for every code outside the set, decode yields the descriptive
"Unknown operating mode value: ..." string and encode of that string yields
null. -/
theorem operating_mode_round_trip :
    (∀ c ∈ ["0", "2", "3", "4", "6"],
      operating_mode_to_state (read_operating_mode_state c) = some c)
    ∧ (∀ v : String, v ∉ ["0", "2", "3", "4", "6"] →
        read_operating_mode_state v = "Unknown operating mode value: " ++ v
        ∧ operating_mode_to_state (read_operating_mode_state v) = none) := by
  constructor
  · intro c hc
    fin_cases hc <;> rfl
  · intro v hv
    simp only [List.mem_cons, List.not_mem_nil, or_false] at hv
    push_neg at hv
    obtain ⟨h0, h2, h3, h4, h6⟩ := hv
    have hread : read_operating_mode_state v = "Unknown operating mode value: " ++ v := by
      simp [read_operating_mode_state, OPERATING_MODE_TO_STRING, List.lookup,
        beq_eq_false_iff_ne.2 h0, beq_eq_false_iff_ne.2 h2, beq_eq_false_iff_ne.2 h3,
        beq_eq_false_iff_ne.2 h4, beq_eq_false_iff_ne.2 h6]
    refine ⟨hread, ?_⟩
    rw [hread]
    simp [operating_mode_to_state, OPERATING_MODE_TO_STRING, List.filter,
      unknown_mode_ne "Heat only" v (by decide), unknown_mode_ne "Auto(Heat)" v (by decide),
      unknown_mode_ne "DHW only" v (by decide), unknown_mode_ne "Heat+DWH" v (by decide),
      unknown_mode_ne "Auto(Heat)+DHW" v (by decide)]

/-- Claim C2, witness: the supported code "0" round-trips, and the unmapped
code "1" decodes to the descriptive unknown string which encodes to null. -/
theorem operating_mode_round_trip_witness :
    operating_mode_to_state (read_operating_mode_state "0") = some "0"
    ∧ (read_operating_mode_state "1" = "Unknown operating mode value: " ++ "1"
       ∧ operating_mode_to_state (read_operating_mode_state "1") = none) :=
  ⟨operating_mode_round_trip.1 "0" (by decide), operating_mode_round_trip.2 "1" (by decide)⟩

/-- Claim C3: for every raw quiet-mode code in 0..4, encoding the decoded
option reproduces the code ("0" ↔ the off label, "4" ↔ the scheduled label,
"1"/"2"/"3" pass through); the encoder returns a Python int, compared here
through its canonical string rendering. -/
theorem quiet_mode_round_trip :
    ∀ c ∈ ["0", "1", "2", "3", "4"],
      (write_quiet_mode (read_quiet_mode c)).map (fun n => toString n) = some c := by
  intro c hc
  fin_cases hc <;> rfl

/-- Claim C3, witness: the scheduled code "4" round-trips. -/
theorem quiet_mode_round_trip_witness :
    (write_quiet_mode (read_quiet_mode "4")).map (fun n => toString n) = some "4" :=
  quiet_mode_round_trip "4" (by decide)

/-- Claim C5: bit_to_bool maps "1" to true, "0" to false, and anything else
to null. -/
theorem bit_to_bool_spec :
    bit_to_bool "1" = some true ∧ bit_to_bool "0" = some false
    ∧ ∀ p : String, p ∉ ["0", "1"] → bit_to_bool p = none := by
  refine ⟨rfl, rfl, ?_⟩
  intro p hp
  simp only [List.mem_cons, List.not_mem_nil, or_false] at hp
  push_neg at hp
  obtain ⟨h0, h1⟩ := hp
  simp [bit_to_bool, h0, h1]

/-- Claim C5, witness: the payload "2" maps to null. -/
theorem bit_to_bool_spec_witness : bit_to_bool "2" = none :=
  bit_to_bool_spec.2.2 "2" (by decide)

/-- Claim C6, counterexample: decode of "0" yields the capitalized "Room",
not the spec's lowercase "room". -/
theorem read_threeway_valve_capitalized : read_threeway_valve "0" ≠ some "room" := by
  decide

/-- Claim C6, amended: `read_threeway_valve` maps "0" to "Room" and "1" to
"Tank" (capitalized in the source), and every other input to null without
raising. -/
theorem read_threeway_valve_spec :
    read_threeway_valve "0" = some "Room" ∧ read_threeway_valve "1" = some "Tank"
    ∧ ∀ v : String, v ≠ "0" → v ≠ "1" → read_threeway_valve v = none := by
  refine ⟨rfl, rfl, ?_⟩
  intro v h0 h1
  simp [read_threeway_valve, h0, h1]

/-- Claim C6, witness: the unhandled payload "5" maps to null. -/
theorem read_threeway_valve_spec_witness : read_threeway_valve "5" = none :=
  read_threeway_valve_spec.2.2 "5" (by decide) (by decide)

/-- Claim C7, counterexample: `ms_to_secs 0` is null, not `0 / 1000` — the
Python truthiness test `if value:` sends the zero value down the null branch,
so not every non-null value is divided by 1000. -/
theorem ms_to_secs_zero_not_divided : ms_to_secs (some 0) ≠ some ((0 : ℚ) / 1000) := by
  simp [ms_to_secs]

/-- Claim C7, amended: `ms_to_secs` divides every non-null *nonzero* value by
1000 and maps both null and zero to null. -/
theorem ms_to_secs_spec :
    ms_to_secs none = none ∧ ms_to_secs (some 0) = none
    ∧ ∀ q : ℚ, q ≠ 0 → ms_to_secs (some q) = some (q / 1000) := by
  refine ⟨rfl, by simp [ms_to_secs], ?_⟩
  intro q hq
  simp [ms_to_secs, hq]

/-- Claim C7, witness: 1500 milliseconds become 1500/1000 seconds. -/
theorem ms_to_secs_spec_witness : ms_to_secs (some 1500) = some ((1500 : ℚ) / 1000) :=
  ms_to_secs_spec.2.2 1500 (by norm_num)

/-- Claim C4: on any JSON object document, extracting a field via
`read_stats_json` returns the field's numeric value when it is present and
nonzero, and null both when the field is absent and when its value is zero
(the documented zero/absent conflation). -/
theorem read_stats_json_field_extraction (doc : String) (fields : List (String × JVal))
    (f : String) (hdoc : json_loads doc = some (JVal.jobj fields)) :
    (dict_get fields f = none → read_stats_json f doc = some none)
    ∧ (∀ q : ℚ, dict_get fields f = some (JVal.jnum q) →
        read_stats_json f doc = some (if q = 0 then none else some q)) := by
  constructor
  · intro habs
    simp [read_stats_json, hdoc, habs]
  · intro q hq
    by_cases h0 : q = 0
    · subst h0
      simp [read_stats_json, hdoc, hq, jtruthy]
    · simp [read_stats_json, hdoc, hq, jtruthy, h0, pyFloat]

/-- Claim C4, witness: extracting "wifi" from the document with wifi = 42
returns 42. -/
theorem read_stats_json_field_extraction_witness :
    read_stats_json "wifi" "\x7b\"wifi\": 42\x7d"
      = some (if (42 : ℚ) = 0 then none else some 42) :=
  (read_stats_json_field_extraction "\x7b\"wifi\": 42\x7d"
    [("wifi", JVal.jnum 42)] "wifi" rfl).2 42 rfl

/-- Claim C8, counterexample: the state keys are not pairwise distinct in
`SENSORS` — all thirteen HeishaMon `STAT1_*` diagnostic sensors share the key
"panasonic_heat_pump/stats". -/
theorem sensors_keys_not_unique : ¬ (SENSORS.map (fun r => r.key)).Nodup := by
  decide

/-- Claim C8, amended: the `heishamon_topic_id` values are pairwise distinct
within every descriptor table, and the `key` values are pairwise distinct in
every table except `SENSORS`, where exactly the thirteen HeishaMon stats
descriptors share the key "panasonic_heat_pump/stats" (each extracting a
different field of the same stats JSON document) and all other keys are
pairwise distinct. -/
theorem registry_uniqueness_amended :
    (SENSORS.map (fun r => r.heishamon_topic_id)).Nodup
    ∧ (MQTT_SWITCHES.map (fun r => r.heishamon_topic_id)).Nodup
    ∧ (BINARY_SENSORS.map (fun r => r.heishamon_topic_id)).Nodup
    ∧ (SELECTS.map (fun r => r.heishamon_topic_id)).Nodup
    ∧ (NUMBERS.map (fun r => r.heishamon_topic_id)).Nodup
    ∧ (MQTT_SWITCHES.map (fun r => r.key)).Nodup
    ∧ (BINARY_SENSORS.map (fun r => r.key)).Nodup
    ∧ (SELECTS.map (fun r => r.key)).Nodup
    ∧ (NUMBERS.map (fun r => r.key)).Nodup
    ∧ ((SENSORS.filter (fun r => r.key != "panasonic_heat_pump/stats")).map (fun r => r.key)).Nodup
    ∧ (SENSORS.filter (fun r => r.key == "panasonic_heat_pump/stats")).length = 13 := by
  exact ⟨by decide, by decide, by decide, by decide, by decide, by decide,
    by decide, by decide, by decide, by decide, by decide⟩

/-- Claim C9: the model-update hook is idempotent.  In any registry holding at
most one record for the entity's identifiers, invoking the hook twice with the
same resolved model equals invoking it once (so the second invocation cannot
fail), and the registry ends with exactly one record carrying those
identifiers and that model. -/
theorem update_device_model_idempotent (entity : AquareaEntity) (cfg model : String)
    (reg : List DeviceEntry)
    (h : reg.countP (fun d => d.identifiers == entity_identifiers entity) ≤ 1) :
    update_device_model entity cfg model (update_device_model entity cfg model reg)
      = update_device_model entity cfg model reg
    ∧ (update_device_model entity cfg model reg).countP
        (fun d => d.identifiers == entity_identifiers entity && d.model == model) = 1 :=
  ⟨agoc_idem reg (entity_identifiers entity) model,
   agoc_count reg (entity_identifiers entity) model h⟩

/-- Claim C9, witness: upserting a model for a fresh entity into the empty
registry twice leaves exactly one matching record. -/
theorem update_device_model_idempotent_witness :
    update_device_model (AquareaEntity.mk (some (DeviceInfo.mk (some "heishamon-aquarea"))))
        "entry1" "IDS Heat Pumps"
        (update_device_model (AquareaEntity.mk (some (DeviceInfo.mk (some "heishamon-aquarea"))))
          "entry1" "IDS Heat Pumps" [])
      = update_device_model (AquareaEntity.mk (some (DeviceInfo.mk (some "heishamon-aquarea"))))
          "entry1" "IDS Heat Pumps" []
    ∧ (update_device_model (AquareaEntity.mk (some (DeviceInfo.mk (some "heishamon-aquarea"))))
        "entry1" "IDS Heat Pumps" []).countP
        (fun d => d.identifiers ==
            entity_identifiers (AquareaEntity.mk (some (DeviceInfo.mk (some "heishamon-aquarea"))))
          && d.model == "IDS Heat Pumps") = 1 :=
  update_device_model_idempotent
    (AquareaEntity.mk (some (DeviceInfo.mk (some "heishamon-aquarea"))))
    "entry1" "IDS Heat Pumps" [] (by decide)

/-- Claim C10: every switch descriptor in `MQTT_SWITCHES` decodes with
`bit_to_bool` and keeps the default outbound payloads "1"/"0", so each
switch's decode maps its own `payload_on` to true and its own `payload_off`
to false. -/
theorem mqtt_switches_decode_own_payloads :
    ∀ d ∈ MQTT_SWITCHES,
      d.state = bit_to_bool ∧ d.payload_on = "1" ∧ d.payload_off = "0"
      ∧ d.state d.payload_on = some true ∧ d.state d.payload_off = some false := by
  intro d hd
  fin_cases hd <;> exact ⟨rfl, rfl, rfl, rfl, rfl⟩

/-- Claim C10, witness: the first switch descriptor (TOP19, holiday mode)
satisfies the property. -/
theorem mqtt_switches_decode_own_payloads_witness :
    (MQTT_SWITCHES.get ⟨0, by decide⟩).state = bit_to_bool
    ∧ (MQTT_SWITCHES.get ⟨0, by decide⟩).payload_on = "1"
    ∧ (MQTT_SWITCHES.get ⟨0, by decide⟩).payload_off = "0"
    ∧ (MQTT_SWITCHES.get ⟨0, by decide⟩).state ((MQTT_SWITCHES.get ⟨0, by decide⟩).payload_on) = some true
    ∧ (MQTT_SWITCHES.get ⟨0, by decide⟩).state ((MQTT_SWITCHES.get ⟨0, by decide⟩).payload_off) = some false :=
  mqtt_switches_decode_own_payloads (MQTT_SWITCHES.get ⟨0, by decide⟩)
    (List.get_mem MQTT_SWITCHES 0 (by decide))
